import Mathlib

/-!
Shallow embedding of the news-chatbot application (src/app.py).

The program is a single Python script: a news fetch / scrape / summarize /
archive pipeline driven either by a chat input or by a daily background
scheduler.  Network and model interactions are modelled by an abstract
environment `Env`; each pipeline function returns its value together with
the list of external effects it performs, in order.
-/

namespace NewsBot

/-- One entry of the parsed RSS feed (`feedparser` entry: title, link, published). -/
structure Entry where
  title : String
  link : String
  published : String
deriving DecidableEq, Repr

/-- The dictionary appended by `fetch_google_news` for each feed entry. -/
structure NewsItem where
  title : String
  link : String
  pubDate : String
  content : String
deriving DecidableEq, Repr

/-- Outcome of `requests.head(rss_link, allow_redirects=True, timeout=5)`:
either the final URL after redirects, or a raised exception (any reason:
timeout, connection error, unresolvable host), carrying its message. -/
inductive HeadResult where
  | ok (finalUrl : String)
  | exn (msg : String)
deriving DecidableEq, Repr

/-- Outcome of `requests.get(url, headers=headers, timeout=5)` as observed by
`crawl_article`: either a response with its status code and the list of
text contents of the `<p>` tags of its HTML body, or a raised exception
carrying its message. -/
inductive GetResult where
  | ok (status : Nat) (paragraphs : List String)
  | exn (msg : String)
deriving DecidableEq, Repr

/-- External effects performed by the pipeline, recorded in program order. -/
inductive Effect where
  | feedFetch (url : String)
  | headReq (url : String)
  | getReq (url : String)
  | modelCall
  | archiveWrite (query : String) (summary : String) (link : Option String)
deriving DecidableEq, Repr

/-- Abstract environment: the behaviour of the network, the language model
and the document store during one run.  `feed` maps a feed query URL to the
parsed feed's entry list; `model` maps (system prompt, user prompt) to the
model's completion or a raised error; `notionCreate` is the document-store
create call, which may raise. -/
structure Env where
  feed : String → List Entry
  head : String → HeadResult
  get : String → GetResult
  model : String → String → Except String String
  notionCreate : String → String → Option String → Except String Unit

/-- Upper-case hexadecimal digit for `n < 16`. -/
def hexUpperDigit (n : Nat) : Char :=
  if n < 10 then Char.ofNat (48 + n) else Char.ofNat (55 + n)

/-- `urllib.parse.quote` treatment of a single UTF-8 byte: letters, digits,
`_.-~` and the default safe character `/` are kept, every other byte becomes
`%XX` with upper-case hex. -/
def quoteByte (b : Nat) : String :=
  if (65 ≤ b ∧ b ≤ 90) ∨ (97 ≤ b ∧ b ≤ 122) ∨ (48 ≤ b ∧ b ≤ 57)
      ∨ b = 45 ∨ b = 46 ∨ b = 95 ∨ b = 126 ∨ b = 47 then
    String.singleton (Char.ofNat b)
  else
    "%" ++ String.singleton (hexUpperDigit (b / 16)) ++ String.singleton (hexUpperDigit (b % 16))

/-- `urllib.parse.quote(keyword)`: percent-encode the UTF-8 bytes. -/
def urlquote (s : String) : String :=
  s.toUTF8.toList.foldl (fun acc b => acc ++ quoteByte b.toNat) ""

/-- The Google News RSS query URL built by `fetch_google_news`. -/
def rss_url (keyword : String) : String :=
  "https://news.google.com/rss/search?q=" ++ urlquote keyword ++ "&hl=ko&gl=KR&ceid=KR:ko"

/-- `get_real_url(rss_link)`: follow redirects with `requests.head`; the bare
`except` returns the input link unchanged on any raised exception. -/
def get_real_url (rss_link : String) (res : HeadResult) : String :=
  match res with
  | .ok u => u
  | .exn _ => rss_link

/-- `crawl_article(url)` applied to the observed response of `requests.get`:
non-200 status yields the access-restricted marker; otherwise the `<p>` texts
are joined with single spaces, text shorter than 50 characters yields the
no-content marker, and otherwise the first 3000 characters are returned.
A raised exception is converted to an error string embedding its message. -/
def crawl_article (res : GetResult) : String :=
  match res with
  | .exn e => "크롤링 오류: " ++ e
  | .ok status paragraphs =>
    if status ≠ 200 then
      "본문 수집 실패 (접근 제한)"
    else
      let content := " ".intercalate paragraphs
      if content.length < 50 then
        "본문 수집 실패 (내용 없음)"
      else
        content.take 3000

/-- `fetch_google_news(keyword)`: parse the feed at the query URL, keep the
first 2 entries, and for each resolve its link and scrape the resolved URL,
assembling a `NewsItem`.  The returned trace is the feed fetch followed by
one head request and one page fetch per kept entry, in order. -/
def fetch_google_news (env : Env) (keyword : String) : List NewsItem × List Effect :=
  let url := rss_url keyword
  let entries := (env.feed url).take 2
  let items := entries.map fun e =>
    let real_url := get_real_url e.link (env.head e.link)
    { title := e.title
      link := real_url
      pubDate := e.published
      content := crawl_article (env.get real_url) }
  (items, Effect.feedFetch url :: entries.flatMap fun e =>
    [Effect.headReq e.link, Effect.getReq (get_real_url e.link (env.head e.link))])

/-- The per-item block of the user prompt built by `summarize_news`, with
article numbering starting at `idx`. -/
def prompt_text_from : Nat → List NewsItem → String
  | _, [] => ""
  | idx, item :: rest =>
    "\n[기사 " ++ toString idx ++ ": " ++ item.title ++ "]\n본문내용: " ++ item.content ++ "\n"
      ++ prompt_text_from (idx + 1) rest

/-- The full user prompt of `summarize_news` (enumeration starts at 1). -/
def prompt_text (news_data : List NewsItem) : String :=
  prompt_text_from 1 news_data

/-- The system prompt of `summarize_news`. -/
def system_prompt (query : String) : String :=
  "사용자가 \x27" ++ query ++
    "\x27에 대해 검색했어. 위 기사들의 \x27본문내용\x27을 바탕으로 핵심 정보를 종합해서 3줄로 깔끔하게 요약해줘."

/-- `summarize_news(news_data, query)`: one model call, no local error
handling — a raised model error is returned as-is to the caller. -/
def summarize_news (env : Env) (news_data : List NewsItem) (query : String) :
    Except String String × List Effect :=
  (env.model (system_prompt query) (prompt_text news_data), [Effect.modelCall])

/-- `save_to_notion(query, summary, link)`: one create call against the
document store; an exception is caught and turned into `false`. -/
def save_to_notion (env : Env) (query summary : String) (link : Option String) :
    Bool × List Effect :=
  match env.notionCreate query summary link with
  | .ok _ => (true, [Effect.archiveWrite query summary link])
  | .error _ => (false, [Effect.archiveWrite query summary link])

/-- The canned greeting reply of the chat handler. -/
def greeting_reply : String := "안녕하세요! 무엇을 도와드릴까요?"

/-- The fixed message returned when the fetch yields zero items. -/
def not_found_reply : String := "관련 기사를 찾지 못했거나 접근이 제한되었습니다."

/-- The formatted success response: header with the query and the summary,
then one source bullet per item. -/
def full_response (prompt summary : String) (items : List NewsItem) : String :=
  items.foldl
    (fun acc item => acc ++ "\n- [" ++ item.title ++ "](" ++ item.link ++ ")")
    ("**[\x27" ++ prompt ++ "\x27 심층 요약]**\n\n" ++ summary ++ "\n\n**출처:**")

/-- The chat handler(lines 180–194 of src/app.py): an input equal to one of the
two greeting literals gets the canned reply with no external activity;
otherwise fetch, then — if any items came back — summarize (whose raised
error, if any, propagates) and archive (boolean result discarded), else the
fixed not-found reply.  The first component is the produced response or the
propagated exception; the second is the effect trace. -/
def chat_handler (env : Env) (prompt : String) : Except String String × List Effect :=
  if prompt = "안녕" ∨ prompt = "반가워" then
    (Except.ok greeting_reply, [])
  else
    let fr := fetch_google_news env prompt
    match fr.1 with
    | [] => (Except.ok not_found_reply, fr.2)
    | first :: rest =>
      let sr := summarize_news env (first :: rest) prompt
      match sr.1 with
      | Except.error e => (Except.error e, fr.2 ++ sr.2)
      | Except.ok summary =>
        let wr := save_to_notion env prompt summary (some first.link)
        (Except.ok (full_response prompt summary (first :: rest)), fr.2 ++ sr.2 ++ wr.2)

/-- `scheduled_job()`: fetch the hardcoded topic; only when the item list is
non-empty, summarize (raised model errors propagate out of the job) and
archive under the auto tag with the first item's link. -/
def scheduled_job (env : Env) : Except String Unit × List Effect :=
  let target_keyword := "최신 AI 기술"
  let fr := fetch_google_news env target_keyword
  match fr.1 with
  | [] => (Except.ok (), fr.2)
  | first :: rest =>
    let sr := summarize_news env (first :: rest) target_keyword
    match sr.1 with
    | Except.error e => (Except.error e, fr.2 ++ sr.2)
    | Except.ok summary =>
      let wr := save_to_notion env ("[자동] " ++ target_keyword) summary (some first.link)
      (Except.ok (), fr.2 ++ sr.2 ++ wr.2)

/-!
Scheduler-thread start guard (lines 150–153 of src/app.py).

Streamlit reruns the whole script on every interaction; `st.session_state`
persists across reruns of one session but is fresh for each new session.
The guard starts the scheduler thread when the current session's state lacks
the `scheduler_started` key.  We model the per-session state, the guard step
run at the top of every script execution, and the process as the collection
of session states plus the count of scheduler threads started so far.
-/

/-- The per-session `st.session_state`, restricted to the guard key:
whether `scheduler_started` has been set in this session. -/
structure SessionState where
  scheduler_started : Bool
deriving DecidableEq, Repr

/-- The guard at lines 150–153: if `scheduler_started` is not in the session
state, start a thread (increment the process-wide count) and set the key. -/
def script_guard (s : SessionState) (threads : Nat) : SessionState × Nat :=
  if s.scheduler_started then (s, threads) else (⟨true⟩, threads + 1)

/-- Process-wide view: the states of all sessions created so far and the
number of scheduler threads that have been started. -/
structure AppProcess where
  sessions : List SessionState
  threads_started : Nat
deriving DecidableEq, Repr

/-- Externally visible events: a new session connecting (fresh session state,
script runs) or a rerun of an existing session (script runs again on its
persisted state). -/
inductive UiEvent where
  | newSession
  | rerun (i : Nat)
deriving DecidableEq, Repr

/-- One script execution at the process level. -/
def proc_step (p : AppProcess) (ev : UiEvent) : AppProcess :=
  match ev with
  | .newSession =>
    let r := script_guard ⟨false⟩ p.threads_started
    ⟨p.sessions ++ [r.1], r.2⟩
  | .rerun i =>
    match p.sessions[i]? with
    | none => p
    | some s =>
      let r := script_guard s p.threads_started
      ⟨p.sessions.set i r.1, r.2⟩

/-- Run a sequence of events from a process state. -/
def proc_run (p : AppProcess) (evs : List UiEvent) : AppProcess :=
  evs.foldl proc_step p

/-- The state of a freshly started process: no sessions, no threads. -/
def init_process : AppProcess := ⟨[], 0⟩

/-- Number of new-session events in a trace. -/
def countNewSessions : List UiEvent → Nat
  | [] => 0
  | UiEvent.newSession :: rest => countNewSessions rest + 1
  | UiEvent.rerun _ :: rest => countNewSessions rest

/-- An environment whose feed is empty and whose network and model calls
all fail; used to exercise the empty-feed paths. -/
def emptyEnv : Env where
  feed _ := []
  head _ := HeadResult.exn "timeout"
  get _ := GetResult.exn "timeout"
  model _ _ := Except.error "model down"
  notionCreate _ _ _ := Except.ok ()

/-- A paragraph long enough to pass the 50-character quality check. -/
def longParagraph : String :=
  "이것은 뉴스 기사 본문 문단입니다. 길이를 오십 자 이상으로 만들기 위한 문장이 이어집니다."

/-- An environment whose feed has one entry and whose calls all succeed
(the scraped page is a short one, so its content is the no-content marker,
which the fetcher absorbs into the item). -/
def okEnv : Env where
  feed _ := [⟨"기사 제목", "https://news.google.com/rss/articles/a1", "Mon, 01 Jan 2024"⟩]
  head _ := HeadResult.ok "https://example.com/article1"
  get _ := GetResult.ok 200 ["짧은 본문"]
  model _ _ := Except.ok "세 줄 요약"
  notionCreate _ _ _ := Except.ok ()

/-- Like `okEnv`, but every model call raises. -/
def modelDownEnv : Env where
  feed _ := [⟨"기사 제목", "https://news.google.com/rss/articles/a1", "Mon, 01 Jan 2024"⟩]
  head _ := HeadResult.ok "https://example.com/article1"
  get _ := GetResult.ok 200 [longParagraph, longParagraph]
  model _ _ := Except.error "model down"
  notionCreate _ _ _ := Except.ok ()

/-- The single news item that `fetch_google_news` assembles under `okEnv`. -/
def okItem : NewsItem where
  title := "기사 제목"
  link := "https://example.com/article1"
  pubDate := "Mon, 01 Jan 2024"
  content := "본문 수집 실패 (내용 없음)"

lemma save_to_notion_trace (env : Env) (q s : String) (l : Option String) :
    (save_to_notion env q s l).2 = [Effect.archiveWrite q s l] := by
  unfold save_to_notion
  split <;> rfl

lemma crawl_article_ok_length_le (status : Nat) (paragraphs : List String) :
    (crawl_article (GetResult.ok status paragraphs)).length ≤ 3000 := by
  have e : crawl_article (GetResult.ok status paragraphs)
      = if status ≠ 200 then "본문 수집 실패 (접근 제한)"
        else if (" ".intercalate paragraphs).length < 50 then "본문 수집 실패 (내용 없음)"
        else (" ".intercalate paragraphs).take 3000 := rfl
  rw [e]
  split_ifs with h1 h2
  · decide
  · decide
  · rw [String.take_eq]
    show ((" ".intercalate paragraphs).1.take 3000).length ≤ 3000
    rw [List.length_take]
    exact Nat.min_le_left _ _

/-- C1 (corrected): the claim's universal 3000-character bound fails on the
exception branch of `crawl_article`, which returns the fixed Korean prefix
(8 characters) concatenated with the raised exception's message; a message of
3000 characters yields a 3008-character result. -/
theorem claim_C1_counterexample :
    3000 < (crawl_article (GetResult.exn (List.replicate 3000 'a').asString)).length := by
  have h : crawl_article (GetResult.exn (List.replicate 3000 'a').asString)
      = ("크롤링 오류: ".data ++ List.replicate 3000 'a').asString := rfl
  rw [h, List.length_asString, List.length_append, List.length_replicate]
  have h8 : "크롤링 오류: ".data.length = 8 := rfl
  omega

/-- C1 (amended): on every non-exception outcome of the page fetch the
Article Scraper returns at most 3000 characters, and consequently, whenever
no page fetch raises, every `NewsItem.content` produced by the News Fetcher
(and hence handed to the Summarizer) is at most 3000 characters long. -/
theorem claim_C1_content_bound (env : Env) (keyword : String)
    (hget : ∀ url msg, env.get url ≠ GetResult.exn msg) :
    (∀ status paragraphs, (crawl_article (GetResult.ok status paragraphs)).length ≤ 3000) ∧
    ∀ item ∈ (fetch_google_news env keyword).1, item.content.length ≤ 3000 := by
  refine ⟨fun status paragraphs => crawl_article_ok_length_le status paragraphs, ?_⟩
  intro item hitem
  simp only [fetch_google_news, List.mem_map] at hitem
  obtain ⟨e, -, rfl⟩ := hitem
  set u := get_real_url e.link (env.head e.link) with hu
  cases hres : env.get u with
  | ok status paragraphs =>
    simpa [hres] using crawl_article_ok_length_le status paragraphs
  | exn msg => exact absurd hres (hget u msg)

/-- C1 witness: the amended bound applied to a concrete all-succeeding
environment and a concrete successful response. -/
theorem claim_C1_witness :
    (crawl_article (GetResult.ok 200 [longParagraph])).length ≤ 3000 :=
  (claim_C1_content_bound okEnv "AI" (fun _ _ h => nomatch h)).1 200 [longParagraph]

/-- C3 (confirmed): the News Fetcher returns at most 2 items for every
keyword and every feed, and an empty feed yields the empty list. -/
theorem claim_C3_fetch_bounded (env : Env) (keyword : String) :
    (fetch_google_news env keyword).1.length ≤ 2 ∧
    (env.feed (rss_url keyword) = [] → (fetch_google_news env keyword).1 = []) := by
  constructor
  · simp only [fetch_google_news, List.length_map, List.length_take]
    exact Nat.min_le_left _ _
  · intro h
    simp [fetch_google_news, h]

/-- C3 witness: the bound and the empty-feed case at a concrete environment
with an empty feed. -/
theorem claim_C3_witness :
    (fetch_google_news emptyEnv "뉴스").1.length ≤ 2 ∧
    (fetch_google_news emptyEnv "뉴스").1 = [] :=
  ⟨(claim_C3_fetch_bounded emptyEnv "뉴스").1,
   (claim_C3_fetch_bounded emptyEnv "뉴스").2 rfl⟩

/-- C4 (confirmed): on a success (HTTP 200) response whose paragraph texts
joined with single spaces are shorter than 50 characters the scraper returns
the no-content marker, and on every non-200 status it returns the
access-restricted marker. -/
theorem claim_C4_markers (status : Nat) (paragraphs : List String) :
    (status = 200 → (" ".intercalate paragraphs).length < 50 →
      crawl_article (GetResult.ok status paragraphs) = "본문 수집 실패 (내용 없음)") ∧
    (status ≠ 200 →
      crawl_article (GetResult.ok status paragraphs) = "본문 수집 실패 (접근 제한)") := by
  constructor
  · intro h hlen
    simp [crawl_article, h, hlen]
  · intro h
    simp [crawl_article, h]

/-- C4 witness: both markers at concrete responses. -/
theorem claim_C4_witness :
    crawl_article (GetResult.ok 200 ["짧은 글"]) = "본문 수집 실패 (내용 없음)" ∧
    crawl_article (GetResult.ok 403 [longParagraph]) = "본문 수집 실패 (접근 제한)" :=
  ⟨(claim_C4_markers 200 ["짧은 글"]).1 rfl (by decide),
   (claim_C4_markers 403 [longParagraph]).2 (by decide)⟩

/-- C7 (confirmed): when the metadata request raises, for any exception
message, `get_real_url` returns the original input URL unchanged; the
function is total (it always returns a `String`), so no exception reaches
its caller. -/
theorem claim_C7_redirect_failure (rss_link : String) (msg : String) :
    get_real_url rss_link (HeadResult.exn msg) = rss_link := rfl

/-- C5 (confirmed): a non-greeting query whose feed parses to zero entries
(so the fetch returns zero items) makes the chat handler answer exactly the
fixed not-found message; the trace holds only the feed fetch, so the model
is never called and no archive write is performed. -/
theorem claim_C5_not_found (env : Env) (prompt : String)
    (h1 : prompt ≠ "안녕") (h2 : prompt ≠ "반가워")
    (hfeed : env.feed (rss_url prompt) = []) :
    chat_handler env prompt = (Except.ok not_found_reply, [Effect.feedFetch (rss_url prompt)]) ∧
    Effect.modelCall ∉ (chat_handler env prompt).2 ∧
    ∀ q s l, Effect.archiveWrite q s l ∉ (chat_handler env prompt).2 := by
  have hfr : fetch_google_news env prompt = ([], [Effect.feedFetch (rss_url prompt)]) := by
    simp [fetch_google_news, hfeed]
  have hch : chat_handler env prompt
      = (Except.ok not_found_reply, [Effect.feedFetch (rss_url prompt)]) := by
    simp [chat_handler, h1, h2, hfr]
  refine ⟨hch, ?_, ?_⟩
  · rw [hch]; simp
  · intro q s l; rw [hch]; simp

/-- C5 witness: the not-found reply at a concrete empty-feed environment. -/
theorem claim_C5_witness :
    chat_handler emptyEnv "테슬라"
      = (Except.ok not_found_reply, [Effect.feedFetch (rss_url "테슬라")]) :=
  (claim_C5_not_found emptyEnv "테슬라" (by decide) (by decide) rfl).1

/-- C6 (confirmed): an input equal to one of the two greeting literals gets
the canned greeting reply with an empty effect trace — no feed fetch, no
head request, no page fetch, no model call, no archive write. -/
theorem claim_C6_greeting (env : Env) (prompt : String)
    (h : prompt = "안녕" ∨ prompt = "반가워") :
    chat_handler env prompt = (Except.ok greeting_reply, []) := by
  simp [chat_handler, h]

/-- C6 witness: the greeting fast path at a concrete environment. -/
theorem claim_C6_witness :
    chat_handler okEnv "안녕" = (Except.ok greeting_reply, []) :=
  claim_C6_greeting okEnv "안녕" (Or.inl rfl)

/-- C8 (confirmed): a model-call failure is returned unwrapped by
`summarize_news`, and both callers propagate it: the chat handler's result
and the scheduled job's result carry the same error whenever the fetch
produced at least one item, with no handling in between. -/
theorem claim_C8_model_failure_propagates (env : Env) (e : String)
    (hmodel : ∀ s u, env.model s u = Except.error e) :
    (∀ items query, (summarize_news env items query).1 = Except.error e) ∧
    (∀ prompt, prompt ≠ "안녕" → prompt ≠ "반가워" →
      (fetch_google_news env prompt).1 ≠ [] →
      (chat_handler env prompt).1 = Except.error e) ∧
    ((fetch_google_news env "최신 AI 기술").1 ≠ [] →
      (scheduled_job env).1 = Except.error e) := by
  refine ⟨fun items query => by simp [summarize_news, hmodel], ?_, ?_⟩
  · intro prompt h1 h2 hne
    rcases hfr : (fetch_google_news env prompt).1 with _ | ⟨first, rest⟩
    · exact absurd hfr hne
    · simp [chat_handler, h1, h2, hfr, summarize_news, hmodel]
  · intro hne
    rcases hfr : (fetch_google_news env "최신 AI 기술").1 with _ | ⟨first, rest⟩
    · exact absurd hfr hne
    · simp [scheduled_job, hfr, summarize_news, hmodel]

/-- C8 witness: the propagated error at a concrete environment whose model
call always fails and whose fetch yields one item. -/
theorem claim_C8_witness :
    (summarize_news modelDownEnv [] "뉴스").1 = Except.error "model down" ∧
    (chat_handler modelDownEnv "뉴스").1 = Except.error "model down" ∧
    (scheduled_job modelDownEnv).1 = Except.error "model down" :=
  ⟨(claim_C8_model_failure_propagates modelDownEnv "model down" (fun _ _ => rfl)).1 [] "뉴스",
   (claim_C8_model_failure_propagates modelDownEnv "model down" (fun _ _ => rfl)).2.1
     "뉴스" (by decide) (by decide) (by decide),
   (claim_C8_model_failure_propagates modelDownEnv "model down" (fun _ _ => rfl)).2.2
     (by decide)⟩

/-- C9 (confirmed): when the scheduled job's fetch returns an empty list the
job performs no model call and no archive write, returns normally (no
exception, so the scheduler loop continues), and its trace holds only the
feed fetch for the hardcoded topic. -/
theorem claim_C9_scheduled_empty (env : Env)
    (hfeed : env.feed (rss_url "최신 AI 기술") = []) :
    scheduled_job env = (Except.ok (), [Effect.feedFetch (rss_url "최신 AI 기술")]) ∧
    Effect.modelCall ∉ (scheduled_job env).2 ∧
    ∀ q s l, Effect.archiveWrite q s l ∉ (scheduled_job env).2 := by
  have hfr : fetch_google_news env "최신 AI 기술"
      = ([], [Effect.feedFetch (rss_url "최신 AI 기술")]) := by
    simp [fetch_google_news, hfeed]
  have hjob : scheduled_job env
      = (Except.ok (), [Effect.feedFetch (rss_url "최신 AI 기술")]) := by
    simp [scheduled_job, hfr]
  refine ⟨hjob, ?_, ?_⟩
  · rw [hjob]; simp
  · intro q s l; rw [hjob]; simp

/-- C9 witness: the short-circuit at a concrete empty-feed environment. -/
theorem claim_C9_witness :
    scheduled_job emptyEnv
      = (Except.ok (), [Effect.feedFetch (rss_url "최신 AI 기술")]) :=
  (claim_C9_scheduled_empty emptyEnv rfl).1

/-- C10 (confirmed): the greeting fast path requires exact string equality
with one of the two literals; every other input — a greeting with extra
whitespace or a longer phrase included — enters the network path (the trace
starts with the feed fetch), and when the fetch yields items and the model
call succeeds the trace also contains the model call and the archive write. -/
theorem claim_C10_exact_match_only (env : Env) (prompt : String)
    (h1 : prompt ≠ "안녕") (h2 : prompt ≠ "반가워") :
    (chat_handler env prompt).2.head? = some (Effect.feedFetch (rss_url prompt)) ∧
    ∀ first rest summary,
      (fetch_google_news env prompt).1 = first :: rest →
      (summarize_news env (first :: rest) prompt).1 = Except.ok summary →
      Effect.modelCall ∈ (chat_handler env prompt).2 ∧
      Effect.archiveWrite prompt summary (some first.link) ∈ (chat_handler env prompt).2 := by
  have hfetch2 : (fetch_google_news env prompt).2
      = Effect.feedFetch (rss_url prompt)
          :: ((env.feed (rss_url prompt)).take 2).flatMap
            (fun e => [Effect.headReq e.link, Effect.getReq (get_real_url e.link (env.head e.link))]) :=
    rfl
  constructor
  · rcases hfr : (fetch_google_news env prompt).1 with _ | ⟨first, rest⟩
    · simp [chat_handler, h1, h2, hfr, hfetch2]
    · rcases hs : (summarize_news env (first :: rest) prompt).1 with e | summary
      · simp [chat_handler, h1, h2, hfr, hs, hfetch2]
      · simp [chat_handler, h1, h2, hfr, hs, hfetch2, save_to_notion_trace]
  · intro first rest summary hfr hs
    simp only [summarize_news] at hs
    have hch : (chat_handler env prompt).2
        = (fetch_google_news env prompt).2
            ++ ([Effect.modelCall]
            ++ [Effect.archiveWrite prompt summary (some first.link)]) := by
      simp [chat_handler, h1, h2, hfr, summarize_news, hs, save_to_notion_trace]
    rw [hch]
    constructor <;> simp

lemma proc_run_started_inv (evs : List UiEvent) :
    ∀ p : AppProcess, (∀ s ∈ p.sessions, s.scheduler_started = true) →
      (proc_run p evs).threads_started = p.threads_started + countNewSessions evs ∧
      ∀ s ∈ (proc_run p evs).sessions, s.scheduler_started = true := by
  induction evs with
  | nil =>
    intro p hp
    exact ⟨rfl, hp⟩
  | cons ev rest ih =>
    intro p hp
    have hstep : (proc_step p ev).threads_started
          = p.threads_started + countNewSessions [ev] ∧
        ∀ s ∈ (proc_step p ev).sessions, s.scheduler_started = true := by
      cases ev with
      | newSession =>
        refine ⟨by simp [proc_step, script_guard, countNewSessions], ?_⟩
        intro x hx
        simp only [proc_step, script_guard] at hx
        rcases List.mem_append.1 hx with h | h
        · exact hp x h
        · simp at h
          subst h
          rfl
      | rerun i =>
        cases hget : p.sessions[i]? with
        | none =>
          refine ⟨by simp [proc_step, hget, countNewSessions], ?_⟩
          intro x hx
          simp only [proc_step, hget] at hx
          exact hp x hx
        | some s0 =>
          have hs0 : s0.scheduler_started = true := hp s0 (List.getElem?_mem hget)
          refine ⟨by simp [proc_step, hget, script_guard, hs0, countNewSessions], ?_⟩
          intro x hx
          simp only [proc_step, hget, script_guard, hs0, if_true] at hx
          rcases List.mem_or_eq_of_mem_set hx with h | h
          · exact hp x h
          · subst h
            exact hs0
    obtain ⟨h1, h2⟩ := hstep
    obtain ⟨ih1, ih2⟩ := ih (proc_step p ev) h2
    have hrun : proc_run p (ev :: rest) = proc_run (proc_step p ev) rest := rfl
    refine ⟨?_, ?_⟩
    · rw [hrun, ih1, h1]
      cases ev <;> (simp [countNewSessions]; try omega)
    · rw [hrun]
      exact ih2

/-- C2 (corrected): the counterexample to the claim as stated — the start
guard lives in per-session state, so a process that serves two fresh user
sessions runs the guard on two independent session states and starts two
scheduler threads; it is false that no second thread is ever started. -/
theorem claim_C2_counterexample :
    ¬ (proc_run init_process
        [UiEvent.newSession, UiEvent.newSession]).threads_started ≤ 1 := by
  decide

/-- C2 (amended): the scheduler thread is started at most once per user
session, not per process: reruns within a session never start another thread
(every recorded session already has the guard key set), and the number of
threads started equals the number of sessions created — which exceeds one as
soon as a second session connects. -/
theorem claim_C2_guard_per_session (evs : List UiEvent) :
    (proc_run init_process evs).threads_started = countNewSessions evs ∧
    ∀ s ∈ (proc_run init_process evs).sessions, s.scheduler_started = true := by
  have h := proc_run_started_inv evs init_process (by intro s hs; simp [init_process] at hs)
  simpa [init_process] using h

/-- C2 witness: one session with a rerun and a second session — two threads
started, one per session, and every session state carries the guard key. -/
theorem claim_C2_witness :
    (proc_run init_process
        [UiEvent.newSession, UiEvent.rerun 0, UiEvent.newSession]).threads_started
      = countNewSessions [UiEvent.newSession, UiEvent.rerun 0, UiEvent.newSession] ∧
    (⟨true⟩ : SessionState).scheduler_started = true :=
  ⟨(claim_C2_guard_per_session [UiEvent.newSession, UiEvent.rerun 0, UiEvent.newSession]).1,
   (claim_C2_guard_per_session [UiEvent.newSession, UiEvent.rerun 0, UiEvent.newSession]).2
     ⟨true⟩ (by decide)⟩

set_option maxRecDepth 2000 in
/-- C10 witness: a greeting with leading whitespace and a longer greeting
both take the network path, and with a successful model call the trace
contains the model call. -/
theorem claim_C10_witness :
    (chat_handler okEnv " 안녕").2.head? = some (Effect.feedFetch (rss_url " 안녕")) ∧
    (chat_handler okEnv "안녕하세요").2.head? = some (Effect.feedFetch (rss_url "안녕하세요")) ∧
    Effect.modelCall ∈ (chat_handler okEnv " 안녕").2 :=
  ⟨(claim_C10_exact_match_only okEnv " 안녕" (by decide) (by decide)).1,
   (claim_C10_exact_match_only okEnv "안녕하세요" (by decide) (by decide)).1,
   ((claim_C10_exact_match_only okEnv " 안녕" (by decide) (by decide)).2
      okItem [] "세 줄 요약" rfl rfl).1⟩

end NewsBot
